import Mathlib

/-!
# Verification of the llm-router core against its specification

Shallow embedding of the routing / execution core of the `llm-router`
repository:

* `app/token_utils.py`        — token estimation heuristics;
* `app/routing_policy.py`     — cost-first deterministic model selection;
* `app/models.py`             — job store and dedupe-key upsert;
* `app/queue_worker.py`       — the queue worker's message handler;
* `app/providers/*.py`        — usage extraction of the provider adapters;
* `api/main.py`               — `call_ollama` retry/fallback loop, the
                                lightweight `choose_model` policy,
                                `_pick_model_by_policy` and the `/route`
                                handler's provider coercion.

Python floats are modelled as `ℚ` (the properties at stake are order
comparisons and exact arithmetic on catalog prices), Python ints as `Int`,
string lengths as `Nat`.  Fallible code returns `Except`.  External effects
(the tiktoken encoder, HTTP calls, environment variables) are passed in as
explicit function parameters, so every definition stays executable.
-/

/-! ## `app/token_utils.py` -/

/-- Token counts carried through routing and cost accounting
(`TokenStats` dataclass, token_utils.py:12-15). -/
structure TokenStats where
  tokens_in : Int
  tokens_out : Int
deriving Repr, DecidableEq

/-- Function `approx_tokens` (token_utils.py:18-22): `0` for a falsy (empty) string,
else `max(1, int(len(text)/4))`.  `int(len/4)` truncates a non-negative
float, which is Nat division by 4. -/
def approx_tokens (text : String) : Nat :=
  if text.length = 0 then 0 else max 1 (text.length / 4)

/-- Function `count_tokens_openai` (token_utils.py:25-30).  The tiktoken encoder is
an external effect, passed in as `enc`; `none` stands for the `except`
branch, which falls back to the heuristic. -/
def count_tokens_openai (enc : String → Option Nat) (prompt : String) : Nat :=
  match enc prompt with
  | some n => n
  | none => approx_tokens prompt

/-- Function `estimate_tokens` (token_utils.py:33-39): exact tokenizer only for
provider `"openai"`, heuristic otherwise; `tokens_out` is the caller's
`expected_output_tokens` verbatim. -/
def estimate_tokens (enc : String → Option Nat) (provider _model : String)
    (prompt : String) (expected_output_tokens : Int) : TokenStats :=
  { tokens_in :=
      if provider = "openai" then (count_tokens_openai enc prompt : Int)
      else (approx_tokens prompt : Int)
    tokens_out := expected_output_tokens }

/-! ## `app/routing_policy.py` -/

/-- One row of the price catalog (`models:` entry of the price table YAML,
fields read in routing_policy.py:65-87). -/
structure ModelRow where
  provider : String
  model : String
  price_in_per_1k : ℚ
  price_out_per_1k : ℚ
  max_input_tokens : Int
  max_output_tokens : Int
  baseline_quality : Int
deriving Repr, DecidableEq

/-- The `RouteDecision` dataclass (routing_policy.py:28-36). -/
structure RouteDecision where
  provider : String
  model : String
  estimated_cost_usd : ℚ
  system_prompt : String
  temperature : ℚ
  cache_hit : Bool
  tokens : TokenStats
deriving Repr, DecidableEq

/-- The `provider_hints` dict: the two keys `choose_model` reads
(routing_policy.py:65-67). -/
structure ProviderHints where
  provider : Option String
  model : Option String
deriving Repr, DecidableEq

/-- Errors raised out of `choose_model`.  The source raises the built-in
`ValueError` (routing_policy.py:97-100); `noViableModel` is the
`NoViableModelError` class of the spec's error taxonomy (spec section 7),
which does not occur anywhere in the source. -/
inductive RouteError where
  | valueError (msg : String)
  | noViableModel (msg : String)
deriving Repr, DecidableEq

/-- Does a result consist of a raised `NoViableModelError`? -/
def raisedNoViableModelError : Except RouteError RouteDecision → Bool
  | .error (.noViableModel _) => true
  | _ => false

/-- A hint excludes a row when the hint value is truthy and differs from the
row's value (`if provider_hints.get("provider") and row["provider"] != ...`,
routing_policy.py:65-68; a `None` or empty-string hint is falsy). -/
def hintExcludes (hint : Option String) (value : String) : Bool :=
  match hint with
  | none => false
  | some h => h ≠ "" && value ≠ h

/-- Token estimate for one candidate row (routing_policy.py:75-77). -/
def rowTokens (enc : String → Option Nat) (input_text : String)
    (expected_output_tokens : Int) (row : ModelRow) : TokenStats :=
  estimate_tokens enc row.provider row.model input_text expected_output_tokens

/-- Estimated cost of one candidate row (routing_policy.py:86-87):
`(tokens_in/1000)*price_in_per_1k + (tokens_out/1000)*price_out_per_1k`. -/
def rowCost (enc : String → Option Nat) (input_text : String)
    (expected_output_tokens : Int) (row : ModelRow) : ℚ :=
  let t := rowTokens enc input_text expected_output_tokens row
  ((t.tokens_in : ℚ) / 1000) * row.price_in_per_1k
    + ((t.tokens_out : ℚ) / 1000) * row.price_out_per_1k

/-- The filter body of the candidate loop (routing_policy.py:63-93), test by
test in source order: provider hint, model hint, quality gate, context
window gates, budget gate (`cost_ceiling_usd > 0 and cost > cost_ceiling_usd`
skips the row). -/
def viableRow (enc : String → Option Nat) (input_text : String)
    (expected_output_tokens : Int) (quality_floor : Int)
    (cost_ceiling_usd : ℚ) (hints : ProviderHints) (row : ModelRow) : Bool :=
  !hintExcludes hints.provider row.provider &&
  !hintExcludes hints.model row.model &&
  !(row.baseline_quality < quality_floor) &&
  !((rowTokens enc input_text expected_output_tokens row).tokens_in > row.max_input_tokens) &&
  !((rowTokens enc input_text expected_output_tokens row).tokens_out > row.max_output_tokens) &&
  !(0 < cost_ceiling_usd && cost_ceiling_usd < rowCost enc input_text expected_output_tokens row)

/-- One surviving candidate: the `(row, cost, tokens)` triple appended by
the loop (routing_policy.py:93). -/
structure Candidate where
  row : ModelRow
  cost : ℚ
  tokens : TokenStats
deriving Repr, DecidableEq

/-- The `candidates` list built by the loop (routing_policy.py:61-93):
rows surviving every test, in catalog order, annotated with their estimated
cost and token stats. -/
def routeCandidates (enc : String → Option Nat) (input_text : String)
    (expected_output_tokens : Int) (quality_floor : Int)
    (cost_ceiling_usd : ℚ) (hints : ProviderHints)
    (rows : List ModelRow) : List Candidate :=
  (rows.filter
      (viableRow enc input_text expected_output_tokens quality_floor cost_ceiling_usd hints)).map
    (fun row =>
      { row := row
        cost := rowCost enc input_text expected_output_tokens row
        tokens := rowTokens enc input_text expected_output_tokens row })

/-- Comparator used by `candidates.sort(key=lambda x: x[1])`
(routing_policy.py:103); Python's `list.sort` is a stable sort by the cost
key, modelled as `mergeSort` with this total `≤` test. -/
def candLE (a b : Candidate) : Bool := a.cost ≤ b.cost

/-- The exact message of routing_policy.py:97-100. -/
def noModelsMsg : String :=
  "No models meet your quality or budget. Try lowering quality_floor or raising cost_ceiling_usd."

/-- Method `RoutingPolicy.choose_model` (routing_policy.py:53-118).  `cfgSystemPrompt`
stands for `settings.DEFAULT_SYSTEM_PROMPT`.  An empty candidate list raises
`ValueError` (routing_policy.py:95-100); otherwise the list is stably sorted
by cost ascending and the first element taken (routing_policy.py:102-104),
and the decision built (routing_policy.py:106-118). -/
def choose_model (cfgSystemPrompt : String) (enc : String → Option Nat)
    (rows : List ModelRow) (input_text : String)
    (expected_output_tokens : Int) (quality_floor : Int)
    (cost_ceiling_usd : ℚ) (hints : ProviderHints) :
    Except RouteError RouteDecision :=
  let candidates :=
    routeCandidates enc input_text expected_output_tokens quality_floor cost_ceiling_usd hints rows
  match (candidates.mergeSort candLE).head? with
  | none => .error (.valueError noModelsMsg)
  | some c =>
      .ok { provider := c.row.provider
            model := c.row.model
            estimated_cost_usd := c.cost
            system_prompt := cfgSystemPrompt
            temperature := 1/5
            cache_hit := false
            tokens := c.tokens }

/-! ## Selection characterisation

`candidates.sort(key=cost)` is a stable ascending sort, so `candidates[0]`
is the first candidate attaining the minimal cost.  `firstMinBy` is the
spec-side rendering of step 8 of the routing algorithm ("minimum by cost
ascending; ties broken by position in the original catalog order,
first-listed wins"); the bridge theorem equates it with the head of the
stable sort. -/

/-- First element of `c :: rest` attaining the minimal `cost` (earlier
elements win ties). -/
def firstMin (c : Candidate) : List Candidate → Candidate
  | [] => c
  | x :: rest => if (firstMin x rest).cost < c.cost then firstMin x rest else c

/-- First element of the list attaining the minimal `cost`. -/
def firstMinBy : List Candidate → Option Candidate
  | [] => none
  | c :: rest => some (firstMin c rest)

theorem firstMin_le (c : Candidate) (rest : List Candidate) :
    ∀ x ∈ c :: rest, (firstMin c rest).cost ≤ x.cost := by
  induction rest generalizing c with
  | nil =>
    intro x hx
    rcases List.mem_cons.mp hx with rfl | hx'
    · exact le_refl _
    · simp at hx'
  | cons y rest ih =>
    intro x hx
    simp only [firstMin]
    by_cases hlt : (firstMin y rest).cost < c.cost
    · rw [if_pos hlt]
      rcases List.mem_cons.mp hx with rfl | hx'
      · exact le_of_lt hlt
      · exact ih y x hx'
    · rw [if_neg hlt]
      rcases List.mem_cons.mp hx with rfl | hx'
      · exact le_refl _
      · exact le_trans (le_of_not_lt hlt) (ih y x hx')

theorem firstMin_decomp (c : Candidate) (rest : List Candidate) :
    ∃ l₁ l₂, c :: rest = l₁ ++ firstMin c rest :: l₂ ∧
      (∀ x ∈ l₁, (firstMin c rest).cost < x.cost) ∧
      (∀ x ∈ l₂, (firstMin c rest).cost ≤ x.cost) := by
  induction rest generalizing c with
  | nil => exact ⟨[], [], rfl, by simp, by simp⟩
  | cons y rest ih =>
    simp only [firstMin]
    by_cases hlt : (firstMin y rest).cost < c.cost
    · rw [if_pos hlt]
      obtain ⟨l₁, l₂, heq, h₁, h₂⟩ := ih y
      refine ⟨c :: l₁, l₂, by rw [List.cons_append, ← heq], ?_, h₂⟩
      intro x hx
      rcases List.mem_cons.mp hx with rfl | hx'
      · exact hlt
      · exact h₁ x hx'
    · rw [if_neg hlt]
      refine ⟨[], y :: rest, rfl, by simp, ?_⟩
      intro x hx
      exact le_trans (le_of_not_lt hlt) (firstMin_le y rest x hx)

theorem firstMinBy_le {l : List Candidate} {m : Candidate}
    (h : firstMinBy l = some m) : ∀ x ∈ l, m.cost ≤ x.cost := by
  cases l with
  | nil => simp [firstMinBy] at h
  | cons c rest =>
    obtain rfl : firstMin c rest = m := Option.some.inj h
    exact firstMin_le c rest

theorem firstMinBy_decomp {l : List Candidate} {m : Candidate}
    (h : firstMinBy l = some m) :
    ∃ l₁ l₂, l = l₁ ++ m :: l₂ ∧ (∀ x ∈ l₁, m.cost < x.cost) ∧
      (∀ x ∈ l₂, m.cost ≤ x.cost) := by
  cases l with
  | nil => simp [firstMinBy] at h
  | cons c rest =>
    obtain rfl : firstMin c rest = m := Option.some.inj h
    exact firstMin_decomp c rest

theorem firstMinBy_mem {l : List Candidate} {m : Candidate}
    (h : firstMinBy l = some m) : m ∈ l := by
  obtain ⟨l₁, l₂, heq, -, -⟩ := firstMinBy_decomp h
  rw [heq]
  exact List.mem_append_right _ (List.mem_cons_self m l₂)

theorem firstMinBy_eq_none {l : List Candidate} (h : firstMinBy l = none) :
    l = [] := by
  cases l with
  | nil => rfl
  | cons c rest => simp [firstMinBy] at h

theorem candLE_trans : ∀ a b c : Candidate, candLE a b → candLE b c → candLE a c := by
  intro a b c hab hbc
  simp only [candLE, decide_eq_true_eq] at *
  exact le_trans hab hbc

theorem candLE_total : ∀ a b : Candidate, candLE a b || candLE b a := by
  intro a b
  simp only [candLE, Bool.or_eq_true, decide_eq_true_eq]
  exact le_total a.cost b.cost

/-- On a duplicate-free candidate list, the head of the stable sort by cost
is exactly the first candidate attaining the minimal cost. -/
theorem head_mergeSort_eq_firstMinBy {l : List Candidate} (hnd : l.Nodup) :
    (l.mergeSort candLE).head? = firstMinBy l := by
  cases hs : l.mergeSort candLE with
  | nil =>
    have hp := List.mergeSort_perm l candLE
    rw [hs] at hp
    have : l = [] := List.Perm.eq_nil hp.symm
    subst this
    simp [firstMinBy]
  | cons h t =>
    have hlne : l ≠ [] := by
      intro he
      subst he
      simp at hs
    obtain ⟨m, hm⟩ : ∃ m, firstMinBy l = some m := by
      cases hfm : firstMinBy l with
      | none => exact absurd (firstMinBy_eq_none hfm) hlne
      | some m => exact ⟨m, rfl⟩
    rw [hm]
    have hperm := List.mergeSort_perm l candLE
    rw [hs] at hperm
    have hmem_h : h ∈ l := hperm.mem_iff.mp (List.mem_cons_self h t)
    have hsorted := List.sorted_mergeSort candLE_trans candLE_total l
    rw [hs] at hsorted
    have hmin : ∀ x ∈ l, h.cost ≤ x.cost := by
      intro x hx
      rcases List.mem_cons.mp (hperm.mem_iff.mpr hx) with rfl | hxt
      · exact le_refl _
      · have := List.rel_of_pairwise_cons hsorted hxt
        simpa [candLE] using this
    have hmem_m : m ∈ l := firstMinBy_mem hm
    have hcost_eq : h.cost = m.cost :=
      le_antisymm (hmin m hmem_m) (firstMinBy_le hm h hmem_h)
    have hhm : h = m := by
      by_contra hne
      obtain ⟨l₁, l₂, heq, h₁, h₂⟩ := firstMinBy_decomp hm
      have hh2 : h ∈ l₂ := by
        rw [heq] at hmem_h
        rcases List.mem_append.mp hmem_h with h1 | h2
        · exact absurd (h₁ h h1) (by rw [← hcost_eq]; exact lt_irrefl _)
        · rcases List.mem_cons.mp h2 with rfl | hh
          · exact absurd rfl hne
          · exact hh
      have hsub : List.Sublist [m, h] l := by
        have s1 : List.Sublist [m, h] (m :: l₂) :=
          (List.singleton_sublist.mpr hh2).cons₂ m
        have s2 : List.Sublist (m :: l₂) l := by
          rw [heq]
          exact List.sublist_append_right l₁ (m :: l₂)
        exact s1.trans s2
      have hle : candLE m h := by
        simp [candLE, hcost_eq.ge]
      have hpair := List.pair_sublist_mergeSort candLE_trans candLE_total hle hsub
      rw [hs] at hpair
      have hht : h ∈ t := by
        cases hpair with
        | cons _ hsub' => exact hsub'.subset (by simp)
        | cons₂ _ hsub' => exact absurd rfl hne
      have hnds : (h :: t).Nodup := (List.Perm.nodup_iff hperm).mpr hnd
      exact (List.nodup_cons.mp hnds).1 hht
    simp [hhm]

/-! ## Claims C1-C3 about `RoutingPolicy.choose_model` -/

/-- The candidate filter with the budget clause removed: the spec-side
reading of "when `cost_ceiling_usd <= 0`, budget never excludes a
candidate" (a non-positive ceiling is the no-cap sentinel). -/
def viableRowUnbudgeted (enc : String → Option Nat) (input_text : String)
    (expected_output_tokens : Int) (quality_floor : Int)
    (hints : ProviderHints) (row : ModelRow) : Bool :=
  !hintExcludes hints.provider row.provider &&
  !hintExcludes hints.model row.model &&
  !(row.baseline_quality < quality_floor) &&
  !((rowTokens enc input_text expected_output_tokens row).tokens_in > row.max_input_tokens) &&
  !((rowTokens enc input_text expected_output_tokens row).tokens_out > row.max_output_tokens)

/-- Candidate list built without any budget gate. -/
def routeCandidatesUnbudgeted (enc : String → Option Nat) (input_text : String)
    (expected_output_tokens : Int) (quality_floor : Int)
    (hints : ProviderHints) (rows : List ModelRow) : List Candidate :=
  (rows.filter
      (viableRowUnbudgeted enc input_text expected_output_tokens quality_floor hints)).map
    (fun row =>
      { row := row
        cost := rowCost enc input_text expected_output_tokens row
        tokens := rowTokens enc input_text expected_output_tokens row })

/-- C1: whenever `choose_model` succeeds, the returned decision is built
from a surviving candidate whose estimated cost is `≤` every other surviving
candidate's cost, and every candidate listed before it in catalog order
costs strictly more — i.e. among equally-cheap candidates the first-listed
wins.  The hypothesis `hcat` is the catalog's own data-model invariant
(unique `(provider, model)` pair per row). -/
theorem choose_model_picks_cheapest_earliest
    (cfgSystemPrompt : String) (enc : String → Option Nat)
    (rows : List ModelRow) (input_text : String)
    (expected_output_tokens : Int) (quality_floor : Int)
    (cost_ceiling_usd : ℚ) (hints : ProviderHints) (d : RouteDecision)
    (hcat : (rows.map (fun r => (r.provider, r.model))).Nodup)
    (hok : choose_model cfgSystemPrompt enc rows input_text expected_output_tokens
            quality_floor cost_ceiling_usd hints = .ok d) :
    ∃ pre c post,
      routeCandidates enc input_text expected_output_tokens quality_floor
          cost_ceiling_usd hints rows = pre ++ c :: post ∧
      d.provider = c.row.provider ∧ d.model = c.row.model ∧
      d.estimated_cost_usd = c.cost ∧ d.tokens = c.tokens ∧
      (∀ x ∈ pre, c.cost < x.cost) ∧
      (∀ x ∈ post, c.cost ≤ x.cost) := by
  simp only [choose_model] at hok
  split at hok
  · simp at hok
  · rename_i c hc
    rw [Except.ok.injEq] at hok
    subst hok
    have hnd : (routeCandidates enc input_text expected_output_tokens quality_floor
        cost_ceiling_usd hints rows).Nodup := by
      apply List.Nodup.of_map (f := fun c : Candidate => (c.row.provider, c.row.model))
      rw [routeCandidates, List.map_map]
      exact hcat.sublist
        (List.Sublist.map _ (List.filter_sublist rows))
    have hfm : firstMinBy (routeCandidates enc input_text expected_output_tokens
        quality_floor cost_ceiling_usd hints rows) = some c := by
      rw [← head_mergeSort_eq_firstMinBy hnd]
      exact hc
    obtain ⟨pre, post, heq, hpre, hpost⟩ := firstMinBy_decomp hfm
    exact ⟨pre, c, post, heq, rfl, rfl, rfl, rfl, hpre, hpost⟩

/-- Hosted sample row (quality tier 1, paid prices). -/
def rowHosted : ModelRow :=
  { provider := "hosted", model := "big", price_in_per_1k := 1
    price_out_per_1k := 1, max_input_tokens := 1000
    max_output_tokens := 1000, baseline_quality := 1 }

/-- Local free sample row (quality tier 2). -/
def rowLocal : ModelRow :=
  { provider := "ollama", model := "tiny", price_in_per_1k := 0
    price_out_per_1k := 0, max_input_tokens := 1000
    max_output_tokens := 1000, baseline_quality := 2 }

/-- Two-row sample catalog used by the concrete witnesses. -/
def sampleRows : List ModelRow := [rowHosted, rowLocal]

/-- The single surviving candidate on the sample catalog for an 8-character
prompt, 5 expected output tokens and quality floor 2. -/
def sampleCand : Candidate :=
  { row := rowLocal
    cost := rowCost (fun _ => none) "abcdefgh" 5 rowLocal
    tokens := rowTokens (fun _ => none) "abcdefgh" 5 rowLocal }

/-- Witness for C1 at a concrete catalog. -/
theorem choose_model_picks_cheapest_earliest_witness :
    ∃ pre c post,
      routeCandidates (fun _ => none) "abcdefgh" 5 2 0 ⟨none, none⟩ sampleRows
        = pre ++ c :: post ∧
      ({ provider := "ollama", model := "tiny", estimated_cost_usd := 0
         system_prompt := "sys", temperature := 1/5, cache_hit := false
         tokens := { tokens_in := 2, tokens_out := 5 } } : RouteDecision).provider
        = c.row.provider ∧
      ({ provider := "ollama", model := "tiny", estimated_cost_usd := 0
         system_prompt := "sys", temperature := 1/5, cache_hit := false
         tokens := { tokens_in := 2, tokens_out := 5 } } : RouteDecision).model
        = c.row.model ∧
      ({ provider := "ollama", model := "tiny", estimated_cost_usd := 0
         system_prompt := "sys", temperature := 1/5, cache_hit := false
         tokens := { tokens_in := 2, tokens_out := 5 } } : RouteDecision).estimated_cost_usd
        = c.cost ∧
      ({ provider := "ollama", model := "tiny", estimated_cost_usd := 0
         system_prompt := "sys", temperature := 1/5, cache_hit := false
         tokens := { tokens_in := 2, tokens_out := 5 } } : RouteDecision).tokens
        = c.tokens ∧
      (∀ x ∈ pre, c.cost < x.cost) ∧
      (∀ x ∈ post, c.cost ≤ x.cost) := by
  apply choose_model_picks_cheapest_earliest "sys" (fun _ => none) sampleRows
      "abcdefgh" 5 2 0 ⟨none, none⟩
  · decide
  · have hc : routeCandidates (fun _ => none) "abcdefgh" 5 2 0 ⟨none, none⟩ sampleRows
        = [sampleCand] := rfl
    simp only [choose_model]
    rw [hc]
    simp only [List.mergeSort_singleton, List.head?_cons]
    norm_num [sampleCand, rowLocal, rowCost, rowTokens, estimate_tokens, approx_tokens]
    decide

/-- C2 counterexample: at a concrete input on which every row is
filtered out (empty catalog), `choose_model` raises the built-in
`ValueError` — not the `NoViableModelError` named by the claim.  There is
no `NoViableModelError` anywhere in the source. -/
theorem choose_model_raises_generic_valueError :
    choose_model "" (fun _ => none) [] "" 0 1 0 ⟨none, none⟩
      = .error (.valueError noModelsMsg)
    ∧ raisedNoViableModelError
        (choose_model "" (fun _ => none) [] "" 0 1 0 ⟨none, none⟩) = false := by
  have h : routeCandidates (fun _ => none) "" 0 1 0 ⟨none, none⟩ [] = [] := rfl
  constructor
  · simp [choose_model, h]
  · simp [choose_model, h, raisedNoViableModelError]

/-- C2 (amended): on every input for which the candidate set is empty
after filtering, `choose_model` raises `ValueError` with the fixed
user-correctable message — never a null decision.  (The claim's
`NoViableModelError` does not exist in the code; the raised class is the
generic built-in `ValueError`.) -/
theorem choose_model_empty_raises_valueError
    (cfgSystemPrompt : String) (enc : String → Option Nat)
    (rows : List ModelRow) (input_text : String)
    (expected_output_tokens : Int) (quality_floor : Int)
    (cost_ceiling_usd : ℚ) (hints : ProviderHints)
    (hempty : routeCandidates enc input_text expected_output_tokens
        quality_floor cost_ceiling_usd hints rows = []) :
    choose_model cfgSystemPrompt enc rows input_text expected_output_tokens
        quality_floor cost_ceiling_usd hints
      = .error (.valueError noModelsMsg) := by
  simp only [choose_model]
  rw [hempty]
  simp

/-- Witness for the amended C2 at a concrete input: on `sampleRows` an
unreachable quality floor of 10 filters out both rows. -/
theorem choose_model_empty_raises_valueError_witness :
    choose_model "sys" (fun _ => none) sampleRows "abcdefgh" 5 10 0 ⟨none, none⟩
      = .error (.valueError noModelsMsg) := by
  apply choose_model_empty_raises_valueError
  rfl

/-- C3: whenever `choose_model` succeeds with a positive cost ceiling,
the selected decision's estimated cost is `≤` the ceiling; and a
non-positive ceiling is the no-cap sentinel — the candidate set is exactly
the one computed without any budget gate. -/
theorem choose_model_budget_respected
    (cfgSystemPrompt : String) (enc : String → Option Nat)
    (rows : List ModelRow) (input_text : String)
    (expected_output_tokens : Int) (quality_floor : Int)
    (cost_ceiling_usd : ℚ) (hints : ProviderHints) :
    (∀ d, choose_model cfgSystemPrompt enc rows input_text expected_output_tokens
        quality_floor cost_ceiling_usd hints = .ok d →
        0 < cost_ceiling_usd → d.estimated_cost_usd ≤ cost_ceiling_usd)
    ∧ (cost_ceiling_usd ≤ 0 →
        routeCandidates enc input_text expected_output_tokens quality_floor
            cost_ceiling_usd hints rows
          = routeCandidatesUnbudgeted enc input_text expected_output_tokens
              quality_floor hints rows) := by
  constructor
  · intro d hok hpos
    simp only [choose_model] at hok
    split at hok
    · simp at hok
    · rename_i c hc
      rw [Except.ok.injEq] at hok
      subst hok
      have hcmem : c ∈ routeCandidates enc input_text expected_output_tokens
          quality_floor cost_ceiling_usd hints rows := by
        have h1 : c ∈ (routeCandidates enc input_text expected_output_tokens
            quality_floor cost_ceiling_usd hints rows).mergeSort candLE :=
          List.mem_of_mem_head? (Option.mem_def.mpr hc)
        exact List.mem_mergeSort.mp h1
      obtain ⟨row, hrow, hcrow⟩ := List.mem_map.mp hcmem
      obtain ⟨hrmem, hviable⟩ := List.mem_filter.mp hrow
      have hb : ¬ (0 < cost_ceiling_usd ∧
          cost_ceiling_usd < rowCost enc input_text expected_output_tokens row) := by
        rintro ⟨h1, h2⟩
        simp [viableRow, h1, h2] at hviable
      have hcost : rowCost enc input_text expected_output_tokens row
          ≤ cost_ceiling_usd :=
        le_of_not_lt (fun hlt => hb ⟨hpos, hlt⟩)
      show c.cost ≤ cost_ceiling_usd
      rw [← hcrow]
      exact hcost
  · intro hle
    unfold routeCandidates routeCandidatesUnbudgeted
    have hnotpos : ¬ (0 < cost_ceiling_usd) := not_lt.mpr hle
    congr 1
    apply List.filter_congr
    intro row _
    simp [viableRow, viableRowUnbudgeted, hnotpos]

/-- Witness for C3: on the sample catalog with ceiling `1/100` the selected
decision costs `0 ≤ 1/100`; and with ceiling `-1` the candidate set equals
the unbudgeted one. -/
theorem choose_model_budget_respected_witness :
    ({ provider := "ollama", model := "tiny"
       estimated_cost_usd := rowCost (fun _ => none) "abcdefgh" 5 rowLocal
       system_prompt := "sys", temperature := 1/5, cache_hit := false
       tokens := rowTokens (fun _ => none) "abcdefgh" 5 rowLocal } : RouteDecision).estimated_cost_usd
      ≤ 1/100
    ∧ routeCandidates (fun _ => none) "abcdefgh" 5 2 (-1) ⟨none, none⟩ sampleRows
        = routeCandidatesUnbudgeted (fun _ => none) "abcdefgh" 5 2 ⟨none, none⟩ sampleRows := by
  constructor
  · apply (choose_model_budget_respected "sys" (fun _ => none) sampleRows
        "abcdefgh" 5 2 (1/100) ⟨none, none⟩).1
    · have htok : rowTokens (fun _ => none) "abcdefgh" 5 rowLocal
          = { tokens_in := 2, tokens_out := 5 } := by decide
      have hcost0 : rowCost (fun _ => none) "abcdefgh" 5 rowLocal = 0 := by
        simp only [rowCost, htok]
        norm_num [rowLocal]
      have hH : viableRow (fun _ => none) "abcdefgh" 5 2 (1/100) ⟨none, none⟩ rowHosted
          = false := by decide
      have hL : viableRow (fun _ => none) "abcdefgh" 5 2 (1/100) ⟨none, none⟩ rowLocal
          = true := by
        simp only [viableRow, hintExcludes, htok, hcost0]
        norm_num [rowLocal]
      have hc : routeCandidates (fun _ => none) "abcdefgh" 5 2 (1/100) ⟨none, none⟩ sampleRows
          = [sampleCand] := by
        simp only [routeCandidates, sampleRows, List.filter_cons, hH, hL]
        simp [sampleCand]
      simp only [choose_model]
      rw [hc]
      simp [sampleCand, rowLocal]
    · norm_num
  · exact (choose_model_budget_respected "sys" (fun _ => none) sampleRows
      "abcdefgh" 5 2 (-1) ⟨none, none⟩).2 (by norm_num)

/-! ## Claim C4 about `estimate_tokens` -/

/-- C4 counterexample: for a non-"openai" provider, the empty prompt
and `expected_output_tokens = 0`, `estimate_tokens` returns `(0, 0)`: the
empty string short-circuits `approx_tokens` to `0` before the `max(1, .)`
clamp, and `tokens_out` is taken verbatim with no clamp — while the claim
demands `(max(1, 0/4), max(1, 0)) = (1, 1)`. -/
theorem estimate_tokens_clamp_counterexample :
    estimate_tokens (fun _ => none) "local" "m" "" 0
      = { tokens_in := 0, tokens_out := 0 }
    ∧ estimate_tokens (fun _ => none) "local" "m" "" 0
      ≠ { tokens_in := ((max 1 (("" : String).length / 4) : Nat) : Int)
          tokens_out := max 1 0 } := by
  constructor
  · decide
  · decide

/-- C4 (amended): for every provider other than `"openai"`, every
prompt and every integer `expected_output_tokens`, `estimate_tokens`
returns `tokens_in = 0` for the empty prompt and `max(1, len/4)` otherwise,
and `tokens_out = expected_output_tokens` verbatim (no `max(1, .)` clamp on
either zero/negative expected output or the empty prompt). -/
theorem estimate_tokens_heuristic
    (enc : String → Option Nat) (provider model prompt : String)
    (expected_output_tokens : Int) (hp : provider ≠ "openai") :
    estimate_tokens enc provider model prompt expected_output_tokens
      = { tokens_in := if prompt.length = 0 then 0
            else ((max 1 (prompt.length / 4) : Nat) : Int)
          tokens_out := expected_output_tokens } := by
  simp only [estimate_tokens, approx_tokens, if_neg hp]
  congr 1
  simp [apply_ite (fun n : Nat => (n : Int))]

/-- Witness for the amended C4 at a concrete non-openai provider, prompt
and negative expected output count. -/
theorem estimate_tokens_heuristic_witness :
    estimate_tokens (fun _ => none) "ollama" "tiny" "abcdefgh" (-3)
      = { tokens_in := if ("abcdefgh" : String).length = 0 then 0
            else ((max 1 (("abcdefgh" : String).length / 4) : Nat) : Int)
          tokens_out := -3 } :=
  estimate_tokens_heuristic (fun _ => none) "ollama" "tiny" "abcdefgh" (-3)
    (by decide)

/-! ## `app/queue_worker.py`: claim C5 -/

/-- The `JobStatus` enum (models.py:32-37). -/
inductive JobStatus where
  | queued
  | running
  | succeeded
  | failed
deriving Repr, DecidableEq

/-- Errors an adapter call can raise towards the worker. -/
inductive ProviderError where
  | timeout
  | connectionError
  | httpError (status : Nat)
deriving Repr, DecidableEq

/-- Observable outcome of one `_handle_message` run (queue_worker.py:68-137):
the job row's final status (`none` = row missing), whether the delivery was
acknowledged (`message.process(requeue=True)` acks on normal exit and
requeues when an exception escapes the block), and whether a JobCost row
was written. -/
structure WorkerResult where
  finalStatus : Option JobStatus
  acked : Bool
  costRecorded : Bool
deriving Repr, DecidableEq

/-- Function `_handle_message` (queue_worker.py:68-137).  The function's suspension
points are passed as values: `job0` = status of the looked-up job row
(`none` = missing, the early `return` at line 82), `routing` = outcome of
`RoutingPolicy.choose_model` (line 95), `call` = outcome of
`adapter.complete` (line 105).  The body has no try/except: a raised error
escapes the `message.process(requeue=True)` block, which requeues the
delivery.  The only status writes in the source are `running` (line 83) and
`succeeded` (line 120); `JobStatus.failed` is never assigned anywhere. -/
def handle_message (job0 : Option JobStatus)
    (routing : Except RouteError RouteDecision)
    (call : Except ProviderError (String × TokenStats)) : WorkerResult :=
  match job0 with
  | none => { finalStatus := none, acked := true, costRecorded := false }
  | some _ =>
    match routing with
    | .error _ =>
        { finalStatus := some .running, acked := false, costRecorded := false }
    | .ok _ =>
      match call with
      | .error _ =>
          { finalStatus := some .running, acked := false, costRecorded := false }
      | .ok _ =>
          { finalStatus := some .succeeded, acked := true, costRecorded := true }

/-- A concrete routing decision used by worker witnesses. -/
def sampleDecision : RouteDecision :=
  { provider := "ollama", model := "tiny", estimated_cost_usd := 0
    system_prompt := "sys", temperature := 1/5, cache_hit := false
    tokens := { tokens_in := 2, tokens_out := 5 } }

/-- C5 counterexample: a concrete exhausted provider failure (a timeout
on a present job with a successful routing decision) leaves the job in
`running`, not `failed`: the worker requeues the delivery and never assigns
`JobStatus.failed`. -/
theorem handle_message_failure_keeps_running :
    (handle_message (some .queued) (.ok sampleDecision) (.error .timeout)).finalStatus
      = some JobStatus.running
    ∧ (handle_message (some .queued) (.ok sampleDecision) (.error .timeout)).finalStatus
      ≠ some JobStatus.failed := by
  constructor
  · rfl
  · simp [handle_message]

/-- C5 (amended): the worker never produces the `failed` status at all;
on a failing provider call (there are no retries on this path) the
exception escapes, the delivery is requeued without acknowledgement, no
cost row is written, and a present job row stays `running`. -/
theorem handle_message_never_failed
    (job0 : Option JobStatus) (routing : Except RouteError RouteDecision)
    (call : Except ProviderError (String × TokenStats)) :
    (handle_message job0 routing call).finalStatus ≠ some JobStatus.failed
    ∧ (∀ e s d, job0 = some s → routing = .ok d → call = .error e →
        handle_message job0 routing call
          = { finalStatus := some .running, acked := false, costRecorded := false }) := by
  constructor
  · cases job0 with
    | none => simp [handle_message]
    | some s =>
      cases routing with
      | error _ => simp [handle_message]
      | ok _ =>
        cases call with
        | error _ => simp [handle_message]
        | ok _ => simp [handle_message]
  · rintro e s d rfl rfl rfl
    rfl

/-- Witness for the amended C5 at a concrete timed-out call. -/
theorem handle_message_never_failed_witness :
    (handle_message (some .queued) (.ok sampleDecision) (.error .timeout)).finalStatus
      ≠ some JobStatus.failed
    ∧ handle_message (some .queued) (.ok sampleDecision) (.error .timeout)
      = { finalStatus := some .running, acked := false, costRecorded := false } :=
  ⟨(handle_message_never_failed (some .queued) (.ok sampleDecision) (.error .timeout)).1,
   (handle_message_never_failed (some .queued) (.ok sampleDecision) (.error .timeout)).2
     .timeout .queued sampleDecision rfl rfl rfl⟩

/-! ## `api/main.py`: the `call_ollama` retry/fallback loop (C6, C7) -/

/-- Environment-derived configuration read by `api/main.py` (lines 803-813):
`MODEL_TRIAGE_PRIMARY`, `MODEL_TRIAGE_FALLBACK` (the empty string is the
falsy "unset" value) and `RETRY_BACKOFF_S`. -/
structure ApiConfig where
  triagePrimary : String
  triageFallback : String
  retryBackoffS : ℚ
deriving Repr, DecidableEq

/-- Outcome of one HTTP `POST /api/generate`; `transientErr` covers the
exceptions caught at main.py:907 (ReadTimeout, ConnectTimeout,
HTTPError). -/
inductive CallOutcome where
  | ok (response : String)
  | transientErr
deriving Repr, DecidableEq

/-- Trace of one `call_ollama` run: the result (an `error` is the raised
`HTTPException` detail prefix), the model name of each provider call in
order, and the sleeps performed between attempts. -/
structure CallTrace where
  result : Except String String
  calls : List String
  sleeps : List ℚ
deriving Repr

/-- The attempt loop of `call_ollama` (main.py:900-925).  The provider's
behaviour is passed as `behavior`: `behavior idx` is the outcome of the
idx-th HTTP call of this run.  `attempt` is the loop counter of
`for attempt in range(retries + 1)`, and `left = retries - attempt` counts
the iterations the loop still allows.  On a transient failure with
`attempt < retries` the loop sleeps `RETRY_BACKOFF_S * (attempt + 1)`
(main.py:910) and retries; on the final failed attempt one fallback call is
made iff `model == MODEL_TRIAGE_PRIMARY and MODEL_TRIAGE_FALLBACK`
(main.py:913-924), otherwise the HTTPException is raised (main.py:925). -/
def call_attempts (cfg : ApiConfig) (behavior : Nat → CallOutcome)
    (model : String) : (attempt left idx : Nat) → CallTrace
  | attempt, left, idx =>
    match behavior idx with
    | .ok r => { result := .ok r, calls := [model], sleeps := [] }
    | .transientErr =>
      match left with
      | left' + 1 =>
        let rest := call_attempts cfg behavior model (attempt + 1) left' (idx + 1)
        { result := rest.result
          calls := model :: rest.calls
          sleeps := cfg.retryBackoffS * ((attempt + 1 : Nat) : ℚ) :: rest.sleeps }
      | 0 =>
        if model = cfg.triagePrimary ∧ cfg.triageFallback ≠ "" then
          match behavior (idx + 1) with
          | .ok r =>
              { result := .ok r, calls := [model, cfg.triageFallback], sleeps := [] }
          | .transientErr =>
              { result := .error "Ollama error (fallback failed)"
                calls := [model, cfg.triageFallback], sleeps := [] }
        else
          { result := .error "Ollama error", calls := [model], sleeps := [] }

/-- Function `call_ollama` (main.py:896-928): run the loop from attempt 0 with
`retries` further iterations allowed. -/
def call_ollama (cfg : ApiConfig) (behavior : Nat → CallOutcome)
    (model : String) (retries : Nat) : CallTrace :=
  call_attempts cfg behavior model 0 retries 0

/-- Full characterisation of an always-failing run of the attempt loop:
one primary call per remaining iteration, then the fallback call exactly
when configured, with linearly growing sleeps between iterations. -/
theorem call_attempts_always_fail (cfg : ApiConfig) (model : String) :
    ∀ left attempt idx,
      call_attempts cfg (fun _ => .transientErr) model attempt left idx
        = { result := .error
              (if model = cfg.triagePrimary ∧ cfg.triageFallback ≠ ""
               then "Ollama error (fallback failed)" else "Ollama error")
            calls := List.replicate (left + 1) model ++
              (if model = cfg.triagePrimary ∧ cfg.triageFallback ≠ ""
               then [cfg.triageFallback] else [])
            sleeps := (List.range left).map
              (fun k => cfg.retryBackoffS * ((attempt + k + 1 : Nat) : ℚ)) } := by
  intro left
  induction left with
  | zero =>
    intro attempt idx
    by_cases hf : model = cfg.triagePrimary ∧ cfg.triageFallback ≠ ""
    · simp [call_attempts, hf]
    · simp [call_attempts, hf]
  | succ left' ih =>
    intro attempt idx
    simp only [call_attempts, ih (attempt + 1) (idx + 1)]
    congr 1
    rw [List.range_succ_eq_map, List.map_cons, List.map_map]
    refine congr_arg₂ List.cons ?_ (List.map_congr_left ?_).symm
    · push_cast
      ring
    · intro k _
      simp only [Function.comp_apply]
      push_cast
      ring

/-- C6: against a provider that fails every call, `call_ollama` calls
the primary model exactly `retries + 1` times — the `range(retries + 1)`
loop bound, i.e. the maximum number of attempts configured via
`OLLAMA_RETRIES` — followed by exactly one fallback call when (and only
when) the primary is the configured triage model and a fallback model is
configured, and by no further provider call: the whole trace holds at most
`retries + 2` calls. -/
theorem call_ollama_attempt_bound (cfg : ApiConfig) (model : String) (retries : Nat) :
    (call_ollama cfg (fun _ => .transientErr) model retries).calls
      = List.replicate (retries + 1) model ++
        (if model = cfg.triagePrimary ∧ cfg.triageFallback ≠ ""
         then [cfg.triageFallback] else [])
    ∧ (call_ollama cfg (fun _ => .transientErr) model retries).calls.length
        ≤ retries + 2 := by
  have h := call_attempts_always_fail cfg model retries 0 0
  constructor
  · rw [call_ollama, h]
  · rw [call_ollama, h]
    by_cases hf : model = cfg.triagePrimary ∧ cfg.triageFallback ≠ "" <;>
      simp [hf]

/-- C7 (amended): the backoff between retry attempts is linear, not
exponential: on a run whose every call fails transiently, the k-th wait is
`RETRY_BACKOFF_S * (k + 1)` — successive waits grow by the constant
additive increment `RETRY_BACKOFF_S`, not by a constant multiplicative
factor. -/
theorem call_ollama_backoff_linear (cfg : ApiConfig) (model : String) (retries : Nat) :
    (call_ollama cfg (fun _ => .transientErr) model retries).sleeps
      = (List.range retries).map
          (fun k => cfg.retryBackoffS * ((k + 1 : Nat) : ℚ)) := by
  rw [call_ollama, call_attempts_always_fail cfg model retries 0 0]
  simp

/-- Concrete configuration for the C7 counterexample: backoff base 1
second, triage models as in the source defaults. -/
def cfgLinear : ApiConfig :=
  { triagePrimary := "phi3:mini", triageFallback := "tinyllama"
    retryBackoffS := 1 }

/-- A wait sequence is exponential when each wait is the previous wait
multiplied by one constant factor greater than 1 (the claim's "grows
exponentially"). -/
def IsExponentialBackoff (l : List ℚ) : Prop :=
  ∃ f : ℚ, 1 < f ∧ l.Chain' (fun a b => b = a * f)

/-- C7 counterexample: with `OLLAMA_RETRY_BACKOFF_S = 1` and
`OLLAMA_RETRIES = 3`, the waits of an always-failing run are `[1, 2, 3]`:
`2 = 1 * f` forces `f = 2` while `3 = 2 * f` forces `f = 3/2`, so no
constant factor exists — the delay grows linearly, not exponentially. -/
theorem call_ollama_backoff_not_exponential :
    (call_ollama cfgLinear (fun _ => .transientErr) "m" 3).sleeps = [1, 2, 3]
    ∧ ¬ IsExponentialBackoff
        (call_ollama cfgLinear (fun _ => .transientErr) "m" 3).sleeps := by
  have hs : (call_ollama cfgLinear (fun _ => .transientErr) "m" 3).sleeps
      = [1, 2, 3] := by
    rw [call_ollama_backoff_linear]
    norm_num [cfgLinear, List.range_succ]
  refine ⟨hs, ?_⟩
  rw [hs]
  rintro ⟨f, hf, hchain⟩
  simp only [List.chain'_cons, List.chain'_singleton, and_true] at hchain
  obtain ⟨h1, h2⟩ := hchain
  rw [one_mul] at h1
  subst h1
  linarith

/-! ## Provider adapters: usage extraction (C8) -/

/-- The fields of the Ollama `/api/generate` response the adapter reads
(local_ollama_provider.py:132-134); `none` models an absent or null JSON
field. -/
structure OllamaGenerateResponse where
  response : Option String
  prompt_eval_count : Option Int
  eval_count : Option Int
deriving Repr, DecidableEq

/-- Tail of `OllamaAdapter.complete` (local_ollama_provider.py:132-136):
`(j.get("response") or "").strip()` and
`int(j.get("prompt_eval_count", 0) or 0)` / `int(j.get("eval_count", 0) or 0)`
— a missing or null count field yields `0`. -/
def ollamaExtract (j : OllamaGenerateResponse) : String × TokenStats :=
  ((j.response.getD "").trim,
   { tokens_in := j.prompt_eval_count.getD 0
     tokens_out := j.eval_count.getD 0 })

/-- The `usage` object of an OpenAI chat-completions response
(openai_provider.py:94-97). -/
structure OpenAIUsage where
  prompt_tokens : Option Int
  completion_tokens : Option Int
deriving Repr, DecidableEq

/-- Usage extraction of `OpenAIAdapter.complete` (openai_provider.py:94-103):
`usage = j.get("usage") or {}`, `int(usage.get("prompt_tokens", 0) or 0)`,
then the `max(0, .)` guard of lines 99-101. -/
def openaiExtractUsage (usage : Option OpenAIUsage) : TokenStats :=
  let u := usage.getD { prompt_tokens := none, completion_tokens := none }
  { tokens_in := max 0 (u.prompt_tokens.getD 0)
    tokens_out := max 0 (u.completion_tokens.getD 0) }

/-- C8 counterexample: a successful Ollama response that omits both
usage fields yields the pair `(0, 0)`, while the estimator's own estimate
for the 12-character prompt "hello world!" has `tokens_in = 3`: the
fallback is the literal zero default of `.get(..., 0)`, not the estimator's
numbers. -/
theorem adapter_usage_fallback_not_estimator :
    (ollamaExtract { response := some "hi", prompt_eval_count := none
                     eval_count := none }).2
      = { tokens_in := 0, tokens_out := 0 }
    ∧ estimate_tokens (fun _ => none) "ollama" "tiny" "hello world!" 64
      = { tokens_in := 3, tokens_out := 64 }
    ∧ ({ tokens_in := 0, tokens_out := 0 } : TokenStats)
      ≠ { tokens_in := 3, tokens_out := 64 } := by
  refine ⟨rfl, by decide, by decide⟩

/-- C8 (amended): the adapters always return a token-usage pair — a
successful response with missing usage fields yields `(0, 0)` (the
`.get(..., 0)` defaults) without any failure; the fallback is zeros, not
the estimator's estimate. -/
theorem adapter_missing_usage_yields_zero
    (j : OllamaGenerateResponse) (u : Option OpenAIUsage)
    (hj1 : j.prompt_eval_count = none) (hj2 : j.eval_count = none)
    (hu : u = none) :
    (ollamaExtract j).2 = { tokens_in := 0, tokens_out := 0 }
    ∧ openaiExtractUsage u = { tokens_in := 0, tokens_out := 0 } := by
  subst hu
  simp [ollamaExtract, openaiExtractUsage, hj1, hj2]

/-- Witness for the amended C8 at concrete responses without usage data. -/
theorem adapter_missing_usage_yields_zero_witness :
    (ollamaExtract { response := some "ok", prompt_eval_count := none
                     eval_count := none }).2
      = { tokens_in := 0, tokens_out := 0 }
    ∧ openaiExtractUsage none = { tokens_in := 0, tokens_out := 0 } :=
  adapter_missing_usage_yields_zero
    { response := some "ok", prompt_eval_count := none, eval_count := none }
    none rfl rfl rfl

/-! ## `app/models.py`: idempotent submission by dedupe key (C9) -/

/-- A `jobs` table row (models.py:39-48). -/
structure JobRec where
  job_id : String
  user_id : String
  task_type : String
  status : JobStatus
  created_at : Nat
  updated_at : Nat
  cost_ceiling_usd : ℚ
  dedupe_key : Option String
deriving Repr, DecidableEq

/-- Database errors the upsert can raise: `scalar_one_or_none` raises
`MultipleResultsFound` when more than one row matches. -/
inductive DbError where
  | multipleResults
deriving Repr, DecidableEq

/-- Function `upsert_job_by_dedupe_key` (models.py:99-125) over a list-of-rows
database model.  A falsy `dedupe_key` (`None` or the empty string) always
inserts `defaults`.  Otherwise the rows matching the key are selected
(`select(Job).where(Job.dedupe_key == dedupe_key)` + `scalar_one_or_none`):
no match inserts `defaults`, a unique match refreshes that row's
`updated_at` (to `now`, i.e. `datetime.utcnow()`) and returns it without
inserting.  Returns the resulting job together with the new table state. -/
def upsert_job_by_dedupe_key (db : List JobRec) (dedupe_key : Option String)
    (defaults : JobRec) (now : Nat) : Except DbError (JobRec × List JobRec) :=
  let falsy := match dedupe_key with
    | none => true
    | some s => s = ""
  if falsy then
    .ok (defaults, db ++ [defaults])
  else
    match db.filter (fun j => j.dedupe_key = dedupe_key) with
    | [] => .ok (defaults, db ++ [defaults])
    | [j] =>
      let updated := { j with updated_at := now }
      .ok (updated, db.map (fun x => if x.job_id = j.job_id then updated else x))
    | _ :: _ :: _ => .error .multipleResults

/-- C9: for a non-empty dedupe key `k` unknown to the table, two
successive submissions with key `k` produce exactly one row carrying `k`:
the first inserts `defaults₁`, the second returns that same job (same
`job_id`) with `updated_at` refreshed to the second submission's time and
inserts nothing; and a submission without a dedupe key always inserts.
`hfresh` is the primary-key uniqueness of the fresh `job_id`. -/
theorem upsert_dedupe_idempotent
    (db : List JobRec) (k : String) (d1 d2 : JobRec) (t1 t2 : Nat)
    (hk : k ≠ "")
    (h0 : db.filter (fun j => j.dedupe_key = some k) = [])
    (hd1 : d1.dedupe_key = some k)
    (hfresh : ∀ x ∈ db, x.job_id ≠ d1.job_id) :
    ∃ db1 j2 db2,
      upsert_job_by_dedupe_key db (some k) d1 t1 = .ok (d1, db1) ∧
      upsert_job_by_dedupe_key db1 (some k) d2 t2 = .ok (j2, db2) ∧
      j2.job_id = d1.job_id ∧ j2.updated_at = t2 ∧
      db1.length = db.length + 1 ∧ db2.length = db1.length ∧
      (db2.filter (fun j => j.dedupe_key = some k)).length = 1 ∧
      (∀ (db' : List JobRec) (d : JobRec) (t : Nat),
        upsert_job_by_dedupe_key db' none d t = .ok (d, db' ++ [d])) := by
  have hmap : db.map (fun x => if x.job_id = d1.job_id then { d1 with updated_at := t2 } else x)
      = db := by
    apply List.map_congr_left ?_ |>.trans (List.map_id db)
    intro x hx
    rw [if_neg (hfresh x hx)]
    rfl
  refine ⟨db ++ [d1], { d1 with updated_at := t2 }, db ++ [{ d1 with updated_at := t2 }],
    ?_, ?_, rfl, rfl, by simp, by simp, ?_, fun db' d t => rfl⟩
  · simp only [upsert_job_by_dedupe_key, hk, h0]
    simp [hk]
  · have hfilter : (db ++ [d1]).filter (fun j => j.dedupe_key = some k) = [d1] := by
      rw [List.filter_append, h0]
      simp [hd1]
    simp only [upsert_job_by_dedupe_key, hfilter]
    simp only [List.map_append, hmap]
    simp [hk]
  · rw [List.filter_append, h0]
    simp [hd1]

/-- A concrete job with dedupe key "abc". -/
def jobA : JobRec :=
  { job_id := "j1", user_id := "u", task_type := "t", status := .queued
    created_at := 0, updated_at := 0, cost_ceiling_usd := 0
    dedupe_key := some "abc" }

/-- A second submission's defaults carrying the same dedupe key. -/
def jobB : JobRec :=
  { job_id := "j2", user_id := "u", task_type := "t", status := .queued
    created_at := 1, updated_at := 1, cost_ceiling_usd := 0
    dedupe_key := some "abc" }

/-- Witness for C9 on an initially empty table. -/
theorem upsert_dedupe_idempotent_witness :
    ∃ db1 j2 db2,
      upsert_job_by_dedupe_key [] (some "abc") jobA 1 = .ok (jobA, db1) ∧
      upsert_job_by_dedupe_key db1 (some "abc") jobB 2 = .ok (j2, db2) ∧
      j2.job_id = jobA.job_id ∧ j2.updated_at = 2 ∧
      db1.length = ([] : List JobRec).length + 1 ∧ db2.length = db1.length ∧
      (db2.filter (fun j => j.dedupe_key = some "abc")).length = 1 ∧
      (∀ (db' : List JobRec) (d : JobRec) (t : Nat),
        upsert_job_by_dedupe_key db' none d t = .ok (d, db' ++ [d])) :=
  upsert_dedupe_idempotent [] "abc" jobA jobB 1 2 (by decide) rfl rfl (by simp)

/-! ## `api/main.py`: `/route` provider coercion (C10) -/

/-- Truthiness of an environment variable (`bool(os.getenv(...))`): unset
or empty is falsy. -/
def envTruthy : Option String → Bool
  | none => false
  | some s => s ≠ ""

/-- Function `_has_key_for` (main.py:46-55), parameterised by the environment. -/
def has_key_for (env : String → Option String) : String → Bool
  | "openai" => envTruthy (env "OPENAI_API_KEY")
  | "anthropic" => envTruthy (env "ANTHROPIC_API_KEY")
  | "mistral" => envTruthy (env "MISTRAL_API_KEY")
  | "google" => envTruthy (env "GOOGLE_API_KEY")
      || envTruthy (env "GOOGLE_GENAI_API_KEY")
  | _ => false

/-- Function `_chars_to_tokens` (main.py:57-59): `max(1, int(chars / 4))` — unlike
token_utils.approx_tokens this clamps the empty prompt to 1 too. -/
def chars_to_tokens (chars : Nat) : Nat := max 1 (chars / 4)

/-- Function `_estimate_tokens` of api/main.py:61-64 (distinct from
`app.token_utils.estimate_tokens`): here the output estimate IS clamped
with `max(1, .)`. -/
def main_estimate_tokens (prompt : String) (expected_out_tokens : Int) :
    Nat × Int :=
  (chars_to_tokens prompt.length, max 1 expected_out_tokens)

/-- One `models:` entry of the price table as read by api/main.py
(fields accessed at lines 66-101). -/
structure PTRow where
  provider : String
  model : String
  price_in_per_1k : ℚ
  price_out_per_1k : ℚ
  baseline_quality : Int
deriving Repr, DecidableEq

/-- Function `_estimate_cost` (main.py:66-69). -/
def main_estimate_cost (m : PTRow) (in_tokens : Nat) (out_tokens : Int) : ℚ :=
  ((in_tokens : ℚ) / 1000) * m.price_in_per_1k
    + ((out_tokens : ℚ) / 1000) * m.price_out_per_1k

/-- Comparator of `viable.sort(key=lambda x: x[0])` (main.py:100). -/
def ptLE (a b : ℚ × PTRow) : Bool := a.1 ≤ b.1

/-- Function `_pick_model_by_policy` (main.py:71-101): keep models meeting the
quality floor whose provider is local or has an API key, annotate with
estimated cost; if none survive, fall back to the first local row, else to
a tiny local default (the dict at main.py:97, which carries no prices);
otherwise return the cheapest viable row (stable sort by cost, first
element). -/
def pick_model_by_policy (models : List PTRow) (hasKey : String → Bool)
    (prompt : String) (expected_out_tokens : Int) (quality_floor : Int) :
    PTRow :=
  let toks := main_estimate_tokens prompt expected_out_tokens
  let viable := models.filterMap (fun m =>
    if m.baseline_quality < quality_floor then none
    else if m.provider ≠ "ollama" && !hasKey m.provider then none
    else some (main_estimate_cost m toks.1 toks.2, m))
  match viable with
  | [] =>
    match models.filter (fun m => m.provider = "ollama") with
    | f :: _ => f
    | [] => { provider := "ollama", model := "tinyllama", price_in_per_1k := 0
              price_out_per_1k := 0, baseline_quality := 2 }
  | v :: vs =>
    match ((v :: vs).mergeSort ptLE).head? with
    | some p => p.2
    | none => v.2

/-- The integration kinds routed to the triage model
(`choose_model`, main.py:874-881). -/
def triageKinds : List String :=
  ["ms.mail_triage", "pd.inbox_lead_actions", "pd.mail_lead",
   "pd.thread_summary_to_pd", "g.gmail_summarize", "g.gmail_draft_reply"]

/-- Function `choose_model` of api/main.py:868-883 — the lightweight local-only
policy (named `_simple` here to avoid clashing with
`RoutingPolicy.choose_model`): triage kinds get the triage primary model,
otherwise `tinyllama` for floors `<= 2` and `phi3:mini` above. -/
def choose_model_simple (cfg : ApiConfig) (quality_floor : Int)
    (integration_kind : Option String) : String :=
  match integration_kind with
  | some k =>
    if k ∈ triageKinds then cfg.triagePrimary
    else if quality_floor ≤ 2 then "tinyllama" else "phi3:mini"
  | none => if quality_floor ≤ 2 then "tinyllama" else "phi3:mini"

/-- The provider/model coercion of the `/route` handler (main.py:1451-1457):
a planned non-ollama provider is coerced to `("ollama", choose_model(...))`
before the call. -/
def coercePlan (cfg : ApiConfig) (quality_floor : Int)
    (integrationKind : Option String) (planned : PTRow) : String × String :=
  if planned.provider ≠ "ollama" then
    ("ollama", choose_model_simple cfg quality_floor integrationKind)
  else (planned.provider, planned.model)

theorem coercePlan_fst (cfg : ApiConfig) (quality_floor : Int)
    (integrationKind : Option String) (planned : PTRow) :
    (coercePlan cfg quality_floor integrationKind planned).1 = "ollama" := by
  unfold coercePlan
  split
  · rfl
  · rename_i h
    simpa using h

/-- Fields of the `dispatch_integration` result read by `/route`
(main.py:1465-1469). -/
structure IntegrationResult where
  artifact_uri : Option String
  integration_status : Option String
  output_override : Option String
deriving Repr, DecidableEq

/-- The `RouteResponse` fields built at main.py:1473-1483 (`latency_ms`, a
wall-clock reading, is not modelled). -/
structure RouteResponseModel where
  job_id : String
  provider : String
  model : String
  output_text : String
  estimated_cost_usd : ℚ
  cached : Bool
  artifact_uri : Option String
  integration_status : Option String
deriving Repr

/-- The `/route` handler (main.py:1422-1483) from the cost-aware planning
step on.  `builtPrompt` is the prompt after the prefetch/enrichment branch
of lines 1433-1447 (prefetch only rewrites the prompt string); `behavior`
drives the HTTP calls `call_ollama` makes; `dispatch` is the outcome of
`dispatch_integration` (main.py:1465), consulted only when an integration
was requested; `jobId` stands for `os.urandom(8).hex()`.  The response is
built with the coerced provider and the literal `estimated_cost_usd=0.0`
(main.py:1478). -/
def route (models : List PTRow) (hasKey : String → Bool) (cfg : ApiConfig)
    (retries : Nat) (behavior : Nat → CallOutcome)
    (integrationKind : Option String)
    (dispatch : Except String IntegrationResult)
    (builtPrompt : String) (expected_output_tokens quality_floor : Int)
    (jobId : String) : Except String RouteResponseModel :=
  let planned := pick_model_by_policy models hasKey builtPrompt
    expected_output_tokens quality_floor
  let pm := coercePlan cfg quality_floor integrationKind planned
  match (call_ollama cfg behavior pm.2 retries).result with
  | .error e => .error e
  | .ok output =>
    match integrationKind with
    | none =>
      .ok { job_id := jobId, provider := pm.1, model := pm.2
            output_text := output, estimated_cost_usd := 0, cached := false
            artifact_uri := none, integration_status := none }
    | some _ =>
      match dispatch with
      | .error e => .error e
      | .ok ir =>
        let out2 := match ir.output_override with
          | some o => if o ≠ "" then o else output
          | none => output
        .ok { job_id := jobId, provider := pm.1, model := pm.2
              output_text := out2, estimated_cost_usd := 0, cached := false
              artifact_uri := ir.artifact_uri
              integration_status := some (ir.integration_status.getD "ok") }

/-- C10: every completed `/route` response reports provider `"ollama"`
and `estimated_cost_usd = 0`; and whenever the cost-aware plan selected a
non-local provider, the model actually used (and reported) is the local
lightweight policy's choice — a hosted provider or a nonzero estimated
cost can never be reported. -/
theorem route_always_local_and_free
    (models : List PTRow) (hasKey : String → Bool) (cfg : ApiConfig)
    (retries : Nat) (behavior : Nat → CallOutcome)
    (integrationKind : Option String)
    (dispatch : Except String IntegrationResult)
    (builtPrompt : String) (expected_output_tokens quality_floor : Int)
    (jobId : String) (resp : RouteResponseModel)
    (hok : route models hasKey cfg retries behavior integrationKind dispatch
        builtPrompt expected_output_tokens quality_floor jobId = .ok resp) :
    resp.provider = "ollama" ∧ resp.estimated_cost_usd = 0 ∧
    ((pick_model_by_policy models hasKey builtPrompt expected_output_tokens
        quality_floor).provider ≠ "ollama" →
      resp.model = choose_model_simple cfg quality_floor integrationKind) := by
  simp only [route] at hok
  split at hok
  · simp at hok
  · split at hok
    · rw [Except.ok.injEq] at hok
      subst hok
      refine ⟨coercePlan_fst cfg quality_floor _ _, rfl, ?_⟩
      intro hne
      show (coercePlan cfg quality_floor _ _).2 = _
      rw [coercePlan, if_pos hne]
    · split at hok
      · simp at hok
      · rw [Except.ok.injEq] at hok
        subst hok
        refine ⟨coercePlan_fst cfg quality_floor _ _, rfl, ?_⟩
        intro hne
        show (coercePlan cfg quality_floor _ _).2 = _
        rw [coercePlan, if_pos hne]

/-- Witness for C10: an empty price table, no API keys, a provider
answering "hi" on the first call. -/
theorem route_always_local_and_free_witness :
    ({ job_id := "job1", provider := "ollama", model := "tinyllama"
       output_text := "hi", estimated_cost_usd := 0, cached := false
       artifact_uri := none
       integration_status := none } : RouteResponseModel).provider = "ollama"
    ∧ ({ job_id := "job1", provider := "ollama", model := "tinyllama"
         output_text := "hi", estimated_cost_usd := 0, cached := false
         artifact_uri := none
         integration_status := none } : RouteResponseModel).estimated_cost_usd = 0
    ∧ ((pick_model_by_policy [] (fun _ => false) "p" 5 1).provider ≠ "ollama" →
        ({ job_id := "job1", provider := "ollama", model := "tinyllama"
           output_text := "hi", estimated_cost_usd := 0, cached := false
           artifact_uri := none
           integration_status := none } : RouteResponseModel).model
          = choose_model_simple cfgLinear 1 none) :=
  route_always_local_and_free [] (fun _ => false) cfgLinear 0
    (fun _ => .ok "hi") none (.ok ⟨none, none, none⟩) "p" 5 1 "job1" _ rfl
